import Mathlib

/-!
Verification development for the path post-processing pipeline of the
gtfs2kml repository (`src/gtfs2kml/road_snapper.py` and the `Shape` /
`ShapePoint` model of `src/gtfs2kml/models.py`).

Coordinates are embedded as rationals (the Python code uses floats; every
comparison and arithmetic step relevant to the verified properties is exact
on the inputs considered).  The external map-matching providers are embedded
as oracles producing an explicit result datatype whose constructors cover the
outcomes distinguished by the code: a transport-level failure (any `requests`
exception, a non-2xx status raised by `raise_for_status`, or a JSON decode
failure), a malformed payload (missing `matchings`), a non-success provider
status code, and a successful match carrying confidence and geometry.
The filesystem cache directory is embedded as an explicit association list
from file names to artifacts (`none` models an unreadable/corrupt artifact).
-/

namespace Gtfs2Kml

/-- A geographic coordinate as a (latitude, longitude) pair, in decimal
degrees, as embedded from the `(p.shape_pt_lat, p.shape_pt_lon)` tuples the
code manipulates. -/
abbrev Coord := ℚ × ℚ

/-- Embedding of `models.ShapePoint` (the fields used by the snapping and
densification pipeline; `shape_dist_traveled` is never read there). -/
structure ShapePoint where
  shape_id : String
  shape_pt_lat : ℚ
  shape_pt_lon : ℚ
  shape_pt_sequence : Nat
deriving DecidableEq, Repr

/-- Embedding of `models.Shape`: an identifier and an ordered point list. -/
structure Shape where
  shape_id : String
  points : List ShapePoint
deriving DecidableEq, Repr

/-- The (lat, lon) pair of a shape point, as extracted by
`snap_shape` / `densify_shape` / the cache serializer. -/
def coordOf (p : ShapePoint) : Coord :=
  (p.shape_pt_lat, p.shape_pt_lon)

/-- `coordinates = [(p.shape_pt_lat, p.shape_pt_lon) for p in shape.points]`
from `RoadSnapper.snap_shape`. -/
def shapeCoords (s : Shape) : List Coord :=
  s.points.map coordOf

namespace RoadSnapperConfig

/-- `RoadSnapperConfig.OSRM_MAX_POINTS`. -/
def OSRM_MAX_POINTS : Nat := 100

/-- `RoadSnapperConfig.MAPBOX_MAX_POINTS`. -/
def MAPBOX_MAX_POINTS : Nat := 100

/-- `RoadSnapperConfig.GOOGLE_MAX_POINTS`. -/
def GOOGLE_MAX_POINTS : Nat := 100

/-- `RoadSnapperConfig.OSRM_CHUNK_SIZE`. -/
def OSRM_CHUNK_SIZE : Nat := 6

/-- `RoadSnapperConfig.MAPBOX_CHUNK_SIZE`. -/
def MAPBOX_CHUNK_SIZE : Nat := 10

/-- `RoadSnapperConfig.GOOGLE_CHUNK_SIZE`. -/
def GOOGLE_CHUNK_SIZE : Nat := 10

end RoadSnapperConfig

/-- Outcome of one OSRM `/match` round-trip, as distinguished by
`RoadSnapper._snap_osrm_chunk`:
* `transportError`: any exception inside the `try` block (network failure,
  timeout, non-2xx status raised by `raise_for_status`, JSON decode failure,
  or a `KeyError` while digging into the payload) — all reach the `except`
  clause;
* `malformed`: payload whose `matchings` entry is missing or empty, which
  raises `KeyError`/`IndexError` at `data["matchings"][0]`, also caught by
  the `except` clause;
* `notOk`: a decoded payload whose top-level `code` field is not `"Ok"`;
* `ok confidence geometry`: a successful match; `confidence` is the value of
  `matchings[0].confidence` (`0` when absent, per `.get("confidence", 0)`),
  `geometry` is `matchings[0].geometry.coordinates` in the wire (lon, lat)
  order. -/
inductive OsrmResult where
  | transportError : OsrmResult
  | malformed : OsrmResult
  | notOk (message : Option String) : OsrmResult
  | ok (confidence : ℚ) (geometry : List (ℚ × ℚ)) : OsrmResult
deriving DecidableEq, Repr

/-- Failure outcomes of an OSRM round-trip: everything except a decoded
success payload (transport error, non-success status, malformed payload). -/
def OsrmResult.isFailure : OsrmResult → Bool
  | .ok _ _ => false
  | _ => true

/-- Outcome of one Mapbox map-matching round-trip, as distinguished by
`RoadSnapper._snap_mapbox_chunk`: `transportError` covers every exception in
the `try` block; `noMatchings` is a decoded payload with `matchings` missing
or empty; `ok geometry` carries `matchings[0].geometry.coordinates` in wire
(lon, lat) order. -/
inductive MapboxResult where
  | transportError : MapboxResult
  | noMatchings : MapboxResult
  | ok (geometry : List (ℚ × ℚ)) : MapboxResult
deriving DecidableEq, Repr

/-- Failure outcomes of a Mapbox round-trip. -/
def MapboxResult.isFailure : MapboxResult → Bool
  | .ok _ => false
  | _ => true

/-- Outcome of one Google Roads round-trip, as distinguished by
`RoadSnapper._snap_google_chunk`: `transportError` covers every exception in
the `try` block; `noSnappedPoints` is a decoded payload without a
`snappedPoints` field; `ok points` carries the snapped locations already in
(lat, lon) order. -/
inductive GoogleResult where
  | transportError : GoogleResult
  | noSnappedPoints : GoogleResult
  | ok (points : List (ℚ × ℚ)) : GoogleResult
deriving DecidableEq, Repr

/-- Failure outcomes of a Google Roads round-trip. -/
def GoogleResult.isFailure : GoogleResult → Bool
  | .ok _ => false
  | _ => true

/-- `RoadSnapper._snap_osrm_chunk`, given the round-trip outcome `r` for this
chunk: every failure returns the original `coordinates`; a success whose
confidence is below `0.75` returns the original `coordinates`; otherwise the
matched geometry is returned converted from wire (lon, lat) to (lat, lon). -/
def snapOsrmChunk (r : OsrmResult) (coords : List Coord) : List Coord :=
  match r with
  | .transportError => coords
  | .malformed => coords
  | .notOk _ => coords
  | .ok confidence geometry =>
      if confidence < 3 / 4 then coords
      else geometry.map fun lc => (lc.2, lc.1)

/-- `RoadSnapper._snap_mapbox_chunk`, given the round-trip outcome. -/
def snapMapboxChunk (r : MapboxResult) (coords : List Coord) : List Coord :=
  match r with
  | .transportError => coords
  | .noMatchings => coords
  | .ok geometry => geometry.map fun lc => (lc.2, lc.1)

/-- `RoadSnapper._snap_google_chunk`, given the round-trip outcome. -/
def snapGoogleChunk (r : GoogleResult) (coords : List Coord) : List Coord :=
  match r with
  | .transportError => coords
  | .noSnappedPoints => coords
  | .ok points => points

/-- The chunk loop shared by `_snap_osrm`, `_snap_mapbox` and `_snap_google`
(`for i in range(0, len(coordinates), step_size): ...`).  `i` is the loop
index; `fuel` bounds the number of iterations (structural recursion; the
callers pass `coordinates.length + 1`, which is sufficient whenever
`0 < step`, see `snapLoop` lemmas below).  Each iteration takes the window
`coordinates[i : min (i+chunkSize) len]`, snaps it with `f` (one provider
call), drops the first `overlap / 2` points of the result for every window
after the first (`if i > 0`), appends, and breaks once
`chunk_end >= len(coordinates)`.  The second component records the windows
sent to the provider, in order (one entry per provider call). -/
def snapLoop (f : List Coord → List Coord) (coords : List Coord)
    (chunkSize overlap step : Nat) : Nat → Nat → List Coord × List (List Coord)
  | _, 0 => ([], [])
  | i, fuel + 1 =>
    let chunkEnd := min (i + chunkSize) coords.length
    let chunk := (coords.drop i).take chunkSize
    let snapped := f chunk
    let kept := if i = 0 then snapped else snapped.drop (overlap / 2)
    if coords.length ≤ chunkEnd then (kept, [chunk])
    else
      let rest := snapLoop f coords chunkSize overlap step (i + step) fuel
      (kept ++ rest.1, chunk :: rest.2)

/-- The common shape of `_snap_osrm` / `_snap_mapbox` / `_snap_google` after
the (unused) `max_points` normalization: a path of at most `chunkSize`
points is snapped in a single provider call on the whole list; a longer path
goes through the overlapping-window loop with `step = chunkSize - overlap`.
Returns the combined snapped coordinates together with the list of windows
sent to the provider. -/
def snapChunked (f : List Coord → List Coord) (chunkSize overlap : Nat)
    (coords : List Coord) : List Coord × List (List Coord) :=
  if coords.length ≤ chunkSize then (f coords, [coords])
  else snapLoop f coords chunkSize overlap (chunkSize - overlap) 0 (coords.length + 1)

/-- `RoadSnapper._snap_osrm`: `max_points` is normalized
(`max_points or OSRM_MAX_POINTS`) and then never used; chunk size 6,
overlap 2. The per-window provider outcome is supplied by `oracle`. -/
def snapOsrm (oracle : List Coord → OsrmResult) (coords : List Coord)
    (maxPoints : Option Nat) : List Coord × List (List Coord) :=
  let _maxPoints := maxPoints.getD RoadSnapperConfig.OSRM_MAX_POINTS
  snapChunked (fun c => snapOsrmChunk (oracle c) c)
    RoadSnapperConfig.OSRM_CHUNK_SIZE 2 coords

/-- `RoadSnapper._snap_mapbox`: chunk size 10, overlap 5; `max_points`
normalized and unused. -/
def snapMapbox (oracle : List Coord → MapboxResult) (coords : List Coord)
    (maxPoints : Option Nat) : List Coord × List (List Coord) :=
  let _maxPoints := maxPoints.getD RoadSnapperConfig.MAPBOX_MAX_POINTS
  snapChunked (fun c => snapMapboxChunk (oracle c) c)
    RoadSnapperConfig.MAPBOX_CHUNK_SIZE 5 coords

/-- `RoadSnapper._snap_google`: chunk size 10, overlap 5; `max_points`
normalized and unused. -/
def snapGoogle (oracle : List Coord → GoogleResult) (coords : List Coord)
    (maxPoints : Option Nat) : List Coord × List (List Coord) :=
  let _maxPoints := maxPoints.getD RoadSnapperConfig.GOOGLE_MAX_POINTS
  snapChunked (fun c => snapGoogleChunk (oracle c) c)
    RoadSnapperConfig.GOOGLE_CHUNK_SIZE 5 coords

/-- The payload `_save_to_cache` serializes (and `_load_from_cache`
deserializes): the snapped shape's identifier and its points as
(lat, lon, sequence) triples. -/
structure CacheData where
  shape_id : String
  points : List (ℚ × ℚ × Nat)
deriving DecidableEq, Repr

/-- The cache directory contents: an association list from file names to
artifacts.  `some none` models a file that exists but fails to deserialize
(corrupt JSON); a missing key models a missing file.  A write conses the new
binding in front, shadowing any previous one (last write wins). -/
abbrev Cache := List (String × Option CacheData)

/-- The cache file name `f"{shape_id}_snapped.json"` inside `cache_dir`. -/
def cacheKey (dir shapeId : String) : String :=
  dir ++ "/" ++ shapeId ++ "_snapped.json"

/-- `RoadSnapper._load_from_cache`: returns `none` when the file does not
exist; returns `none` (a logged warning, treated as a miss) when the
artifact fails to deserialize; otherwise rebuilds the `Shape` from the
stored identifier and (lat, lon, seq) triples, each rebuilt point carrying
the stored shape identifier. -/
def loadFromCache (cache : Cache) (dir shapeId : String) : Option Shape :=
  match cache.lookup (cacheKey dir shapeId) with
  | none => none
  | some none => none
  | some (some d) =>
      some { shape_id := d.shape_id,
             points := d.points.map fun t =>
               ⟨d.shape_id, t.1, t.2.1, t.2.2⟩ }

/-- `RoadSnapper._save_to_cache`: serializes the snapped shape under the
original shape's cache key.  `writeOk = false` models an I/O failure inside
the `try` block: it is logged and swallowed, leaving the cache unchanged. -/
def saveToCache (writeOk : Bool) (cache : Cache) (dir origShapeId : String)
    (snapped : Shape) : Cache :=
  if writeOk then
    (cacheKey dir origShapeId,
      some ⟨snapped.shape_id,
            snapped.points.map fun p =>
              (p.shape_pt_lat, p.shape_pt_lon, p.shape_pt_sequence)⟩) :: cache
  else cache

/-- Embedding of a constructed `RoadSnapper` instance: the (lower-cased)
provider string, the optional API key, and the optional cache directory. -/
structure RoadSnapper where
  provider : String
  api_key : Option String
  cache_dir : Option String
deriving DecidableEq, Repr

/-- `provider.lower()`: lower-cases each character of the string. -/
def strToLower (s : String) : String :=
  String.mk (s.data.map Char.toLower)

/-- `RoadSnapper.__init__`: lower-cases the provider and fails fast
(`ValueError`) when the `mapbox` or `google` provider lacks an API key
(Python's `not api_key` is true for `None` and for the empty string).
The `cache_dir.mkdir` side effect is not represented. -/
def RoadSnapper.init (provider : String) (api_key : Option String)
    (cache_dir : Option String) : Except String RoadSnapper :=
  let p := strToLower provider
  let keyPresent := match api_key with
    | none => false
    | some s => !s.isEmpty
  if p = "mapbox" && !keyPresent then
    Except.error "Mapbox provider requires api_key"
  else if p = "google" && !keyPresent then
    Except.error "Google provider requires api_key"
  else
    Except.ok ⟨p, api_key, cache_dir⟩

/-- The per-chunk provider oracles: the outcome of each round-trip as a
function of the chunk sent.  One bundled value stands for the network
environment of a whole `snap_shape` run. -/
structure Providers where
  osrm : List Coord → OsrmResult
  mapbox : List Coord → MapboxResult
  google : List Coord → GoogleResult

/-- The cache check at the top of `snap_shape`: only consulted when a cache
directory is configured. -/
def cacheLookup (rs : RoadSnapper) (cache : Cache) (shapeId : String) :
    Option Shape :=
  match rs.cache_dir with
  | none => none
  | some dir => loadFromCache cache dir shapeId

/-- The new shape built at the end of `snap_shape`: identifier
`f"{shape.shape_id}_snapped"`, points enumerated from 0. -/
def enumPointsAux (shapeId : String) : Nat → List Coord → List ShapePoint
  | _, [] => []
  | i, c :: rest => ⟨shapeId, c.1, c.2, i⟩ :: enumPointsAux shapeId (i + 1) rest

/-- `RoadSnapper.snap_shape`, with the provider network modelled by `prov`,
the cache directory contents by `cache`, and a cache-write I/O failure by
`writeOk = false`.  Returns the produced shape, the updated cache contents
and the trace of provider calls (the windows sent), or the `ValueError`
message that `snap_shape` raises for an unrecognized provider.  A cache hit
returns the cached shape with no provider call and no cache write. -/
def snapShapeE (rs : RoadSnapper) (prov : Providers) (cache : Cache)
    (writeOk : Bool) (shape : Shape) (maxPoints : Option Nat) :
    Except String (Shape × Cache × List (List Coord)) :=
  match cacheLookup rs cache shape.shape_id with
  | some cached => Except.ok (cached, cache, [])
  | none =>
    let coords := shapeCoords shape
    let snapped : Except String (List Coord × List (List Coord)) :=
      if rs.provider = "osrm" then Except.ok (snapOsrm prov.osrm coords maxPoints)
      else if rs.provider = "mapbox" then
        Except.ok (snapMapbox prov.mapbox coords maxPoints)
      else if rs.provider = "google" then
        Except.ok (snapGoogle prov.google coords maxPoints)
      else Except.error ("Unknown provider: " ++ rs.provider)
    match snapped with
    | Except.error e => Except.error e
    | Except.ok sc =>
      let snappedShape : Shape :=
        { shape_id := shape.shape_id ++ "_snapped",
          points := enumPointsAux (shape.shape_id ++ "_snapped") 0 sc.1 }
      let cache' := match rs.cache_dir with
        | none => cache
        | some dir => saveToCache writeOk cache dir shape.shape_id snappedShape
      Except.ok (snappedShape, cache', sc.2)

/-- Python's `int(x)` on the nonnegative ratio `distance / interval_meters`
computed in `densify_shape` (truncation; equal to the floor on the
nonnegative values the code feeds it). -/
def pyFloorPos (x : ℚ) : Nat :=
  x.num.toNat / x.den

/-- The `if distance > self.interval_meters:` block of
`PathDensifier.densify_shape` for one consecutive pair: the `n` linearly
interpolated intermediate points at fractions `seg / (n + 1)`,
`seg = 1 .. n`, where `n = int(distance / interval_meters)` and `dist` is
the geodesic distance oracle (`geopy.distance.geodesic(...).meters`). -/
def densifySegment (dist : Coord → Coord → ℚ) (interval : ℚ)
    (c1 c2 : Coord) : List Coord :=
  let d := dist c1 c2
  if interval < d then
    let n := pyFloorPos (d / interval)
    (List.range n).map fun k =>
      let fr : ℚ := ((k : ℚ) + 1) / ((n : ℚ) + 1)
      (c1.1 + fr * (c2.1 - c1.1), c1.2 + fr * (c2.2 - c1.2))
  else []

/-- The pair-walking loop of `densify_shape`
(`for i in range(len(shape.points) - 1)`): for each consecutive pair, emit
the first point followed by its interpolated intermediates.  The final point
of the path is appended by the caller, as in the code. -/
def densifyWalk (dist : Coord → Coord → ℚ) (interval : ℚ) :
    List Coord → List Coord
  | [] => []
  | [_] => []
  | c1 :: c2 :: rest =>
      (c1 :: densifySegment dist interval c1 c2)
        ++ densifyWalk dist interval (c2 :: rest)

/-- `PathDensifier.densify_shape` (the `PathDensifier` instance's
`interval_meters` passed explicitly; the geodesic distance computation
passed as the oracle `dist`).  A shape with fewer than 2 points is returned
unchanged — the very input object.  Otherwise the emitted coordinates are
the pair-walk output plus the final point, enumerated from 0 into points
carrying the `_dense`-tagged identifier.  `preservePoints` is normalized
(`preserve_points or []`) and never used afterwards, exactly as in the
code. -/
def densifyShape (dist : Coord → Coord → ℚ) (interval : ℚ) (shape : Shape)
    (preservePoints : Option (List Nat)) : Shape :=
  if shape.points.length < 2 then shape
  else
    let _pp := preservePoints.getD []
    let cs := shapeCoords shape
    let out := densifyWalk dist interval cs ++ [cs.getLastD (0, 0)]
    { shape_id := shape.shape_id ++ "_dense",
      points := enumPointsAux (shape.shape_id ++ "_dense") 0 out }

/-- Whether a coordinate list contains two consecutive identical points. -/
def hasAdjacentDup : List Coord → Bool
  | [] => false
  | [_] => false
  | a :: b :: rest => if a = b then true else hasAdjacentDup (b :: rest)

/-! ### Helper lemmas -/

theorem enumPointsAux_map_coordOf (shapeId : String) (l : List Coord) :
    ∀ i, (enumPointsAux shapeId i l).map coordOf = l := by
  induction l with
  | nil => intro i; rfl
  | cons c rest ih => intro i; simp [enumPointsAux, coordOf, ih]

theorem enumPointsAux_length (shapeId : String) (l : List Coord) :
    ∀ i, (enumPointsAux shapeId i l).length = l.length := by
  induction l with
  | nil => intro i; rfl
  | cons c rest ih => intro i; simp [enumPointsAux, ih]

theorem mul_length_le_sum_map {α : Type} (g : α → Nat) (k : Nat) (l : List α)
    (h : ∀ c ∈ l, k ≤ g c) : k * l.length ≤ (l.map g).sum := by
  induction l with
  | nil => simp
  | cons a t ih =>
    simp only [List.map_cons, List.sum_cons, List.length_cons]
    have h1 : k ≤ g a := h a (by simp)
    have h2 := ih fun c hc => h c (by simp [hc])
    rw [Nat.mul_succ]
    omega

theorem sum_map_sub {α : Type} (g : α → Nat) (k : Nat) (l : List α)
    (h : ∀ c ∈ l, k ≤ g c) :
    (l.map fun c => g c - k).sum = (l.map g).sum - k * l.length := by
  induction l with
  | nil => simp
  | cons a t ih =>
    simp only [List.map_cons, List.sum_cons, List.length_cons]
    have h1 : k ≤ g a := h a (by simp)
    have h2 := ih fun c hc => h c (by simp [hc])
    have h3 := mul_length_le_sum_map g k t fun c hc => h c (by simp [hc])
    rw [Nat.mul_succ]
    omega

theorem string_append_tag_ne (s t : String) (ht : t.length ≠ 0) : s ++ t ≠ s := by
  intro h
  have h2 := congrArg String.length h
  rw [String.length_append] at h2
  omega

/-- Inside the chunk loop (every window with a positive start index has its
snapped result's first `overlap / 2` points discarded), the combined length
is the sum over the windows sent of the window result length minus the
truncated discard. -/
theorem snapLoop_length_pos (f : List Coord → List Coord) (coords : List Coord)
    (chunkSize overlap step : Nat) (hstep : 0 < step) (hcs : 0 < chunkSize) :
    ∀ (fuel i : Nat), 0 < i → 0 < fuel → coords.length ≤ i + fuel →
      (snapLoop f coords chunkSize overlap step i fuel).1.length
        = ((snapLoop f coords chunkSize overlap step i fuel).2.map
            fun c => (f c).length - overlap / 2).sum := by
  intro fuel
  induction fuel with
  | zero =>
    intro i _ h0 _
    exact absurd h0 (lt_irrefl 0)
  | succ n ih =>
    intro i hi _ hle
    have hne : ¬ i = 0 := Nat.pos_iff_ne_zero.mp hi
    by_cases hbr : coords.length ≤ min (i + chunkSize) coords.length
    · simp [snapLoop, hbr, hne]
    · have hlt : i + chunkSize < coords.length := by
        rcases Nat.lt_or_ge (i + chunkSize) coords.length with h | h
        · exact h
        · exact absurd (le_min h (le_refl _)) hbr
      have h0n : 0 < n := by omega
      have ihh := ih (i + step) (by omega) h0n (by omega)
      simp only [snapLoop, hne, if_false, hbr, ite_false, if_neg hbr,
        List.length_append, List.length_drop, List.map_cons, List.sum_cons]
      rw [ihh]

/-- The stitched length equation for the chunked snapping shared by all
three providers, on any path long enough to require more than one window:
the combined point count is the sum of each window result's length minus
`overlap / 2` discarded points per window after the first, provided each
later window result has at least `overlap / 2` points. -/
theorem snapChunked_length (f : List Coord → List Coord) (chunkSize overlap : Nat)
    (coords : List Coord) (hov : overlap < chunkSize)
    (hlen : chunkSize < coords.length)
    (h : ∀ c ∈ (snapChunked f chunkSize overlap coords).2.tail,
          overlap / 2 ≤ (f c).length) :
    (snapChunked f chunkSize overlap coords).1.length
      = ((snapChunked f chunkSize overlap coords).2.map fun c => (f c).length).sum
        - (overlap / 2) * ((snapChunked f chunkSize overlap coords).2.length - 1) := by
  have hnle : ¬ coords.length ≤ chunkSize := Nat.not_le.mpr hlen
  have hbr : ¬ coords.length ≤ min (0 + chunkSize) coords.length := by
    simp only [Nat.zero_add]
    intro hc
    exact hnle (le_trans hc (min_le_left _ _))
  have hstep : 0 < chunkSize - overlap := by omega
  have hcs : 0 < chunkSize := by omega
  have hrec := snapLoop_length_pos f coords chunkSize overlap (chunkSize - overlap)
    hstep hcs coords.length (0 + (chunkSize - overlap)) (by omega)
    (by omega) (by omega)
  have htail : (snapChunked f chunkSize overlap coords).2
      = ((coords.drop 0).take chunkSize)
        :: (snapLoop f coords chunkSize overlap (chunkSize - overlap)
              (0 + (chunkSize - overlap)) coords.length).2 := by
    simp [snapChunked, hnle, snapLoop, hbr]
  have hhead : (snapChunked f chunkSize overlap coords).1
      = f ((coords.drop 0).take chunkSize)
        ++ (snapLoop f coords chunkSize overlap (chunkSize - overlap)
              (0 + (chunkSize - overlap)) coords.length).1 := by
    simp [snapChunked, hnle, snapLoop, hbr]
  rw [htail] at h
  have h2 : ∀ c ∈ (snapLoop f coords chunkSize overlap (chunkSize - overlap)
      (0 + (chunkSize - overlap)) coords.length).2,
      overlap / 2 ≤ (f c).length := by
    intro c hc
    exact h c (by simpa using hc)
  have hsub := sum_map_sub (fun c => (f c).length) (overlap / 2) _ h2
  have hbound := mul_length_le_sum_map (fun c => (f c).length) (overlap / 2) _ h2
  rw [hhead, htail]
  simp only [List.length_append, List.map_cons, List.sum_cons, List.length_cons]
  rw [hrec, hsub]
  simp only [Nat.add_sub_cancel]
  omega

/-- The single-call chunk size of each provider (`OSRM_CHUNK_SIZE`,
`MAPBOX_CHUNK_SIZE`, `GOOGLE_CHUNK_SIZE` selected by the provider string,
as the `_snap_osrm` / `_snap_mapbox` / `_snap_google` dispatch does). -/
def providerChunkSize (provider : String) : Nat :=
  if provider = "osrm" then RoadSnapperConfig.OSRM_CHUNK_SIZE
  else if provider = "mapbox" then RoadSnapperConfig.MAPBOX_CHUNK_SIZE
  else if provider = "google" then RoadSnapperConfig.GOOGLE_CHUNK_SIZE
  else 0

/-! ### Claim theorems -/

/-- C1: for every single-chunk provider call whose round-trip fails
(transport error, non-success status, or malformed payload), the snapped
result for that chunk is the original chunk coordinate list, unchanged and
in order — for each of the three providers' chunk functions.  The chunk
functions are total, so no exception propagates to `snap`'s caller. -/
theorem chunk_failure_returns_original (coords : List Coord)
    (ro : OsrmResult) (rm : MapboxResult) (rg : GoogleResult) :
    (ro.isFailure = true → snapOsrmChunk ro coords = coords)
    ∧ (rm.isFailure = true → snapMapboxChunk rm coords = coords)
    ∧ (rg.isFailure = true → snapGoogleChunk rg coords = coords) := by
  refine ⟨?_, ?_, ?_⟩
  · intro h
    cases ro <;> simp_all [snapOsrmChunk, OsrmResult.isFailure]
  · intro h
    cases rm <;> simp_all [snapMapboxChunk, MapboxResult.isFailure]
  · intro h
    cases rg <;> simp_all [snapGoogleChunk, GoogleResult.isFailure]

/-- C1 witness: concrete failing round-trips on a concrete chunk. -/
theorem chunk_failure_returns_original_witness :
    snapOsrmChunk OsrmResult.transportError [((1 : ℚ), (2 : ℚ))] = [((1 : ℚ), (2 : ℚ))]
    ∧ snapMapboxChunk MapboxResult.noMatchings [((1 : ℚ), (2 : ℚ))] = [((1 : ℚ), (2 : ℚ))]
    ∧ snapGoogleChunk GoogleResult.transportError [((1 : ℚ), (2 : ℚ))] = [((1 : ℚ), (2 : ℚ))] :=
  ⟨(chunk_failure_returns_original _ OsrmResult.transportError
      MapboxResult.noMatchings GoogleResult.transportError).1 rfl,
   (chunk_failure_returns_original _ OsrmResult.transportError
      MapboxResult.noMatchings GoogleResult.transportError).2.1 rfl,
   (chunk_failure_returns_original _ OsrmResult.transportError
      MapboxResult.noMatchings GoogleResult.transportError).2.2 rfl⟩

/-- C5: the OSRM confidence gate — a successful match whose confidence is
below 0.75 falls back to the original chunk coordinates; a confidence of at
least 0.75 returns the matched geometry converted to (lat, lon) order. -/
theorem osrm_confidence_gate (coords : List Coord) (confidence : ℚ)
    (geometry : List (ℚ × ℚ)) :
    (confidence < 3 / 4 →
      snapOsrmChunk (OsrmResult.ok confidence geometry) coords = coords)
    ∧ (3 / 4 ≤ confidence →
      snapOsrmChunk (OsrmResult.ok confidence geometry) coords
        = geometry.map fun lc => (lc.2, lc.1)) := by
  constructor
  · intro h
    simp [snapOsrmChunk, h]
  · intro h
    simp [snapOsrmChunk, not_lt.mpr h]

/-- C5 witness: confidence 0.5 falls back, confidence 0.9 returns the
swapped matched geometry. -/
theorem osrm_confidence_gate_witness :
    snapOsrmChunk (OsrmResult.ok (1 / 2) [((5 : ℚ), (6 : ℚ))]) [((1 : ℚ), (2 : ℚ))]
        = [((1 : ℚ), (2 : ℚ))]
    ∧ snapOsrmChunk (OsrmResult.ok (9 / 10) [((5 : ℚ), (6 : ℚ))]) [((1 : ℚ), (2 : ℚ))]
        = [((6 : ℚ), (5 : ℚ))] := by
  constructor
  · exact (osrm_confidence_gate [((1 : ℚ), (2 : ℚ))] (1 / 2) [((5 : ℚ), (6 : ℚ))]).1
      (by norm_num)
  · have h := (osrm_confidence_gate [((1 : ℚ), (2 : ℚ))] (9 / 10) [((5 : ℚ), (6 : ℚ))]).2
      (by norm_num)
    simpa using h

/-- C6: cache round-trip — storing a snapped shape under an original id and
loading with the same original id yields a shape whose ordered (lat, lon)
pairs are exactly those of the stored shape. -/
theorem cache_roundtrip (cache : Cache) (dir origId : String) (s : Shape) :
    (loadFromCache (saveToCache true cache dir origId s) dir origId).map
        (fun sh => sh.points.map coordOf)
      = some (s.points.map coordOf) := by
  simp [loadFromCache, saveToCache, List.lookup, coordOf]

/-- C9: the `max_points_per_request` argument of `snap_shape` has no effect:
for any two values (including omitted), the two runs return identical
results, with the identical cache state and the identical provider-call
trace. -/
theorem snapShape_maxPoints_irrelevant (rs : RoadSnapper) (prov : Providers)
    (cache : Cache) (writeOk : Bool) (shape : Shape) (mp1 mp2 : Option Nat) :
    snapShapeE rs prov cache writeOk shape mp1
      = snapShapeE rs prov cache writeOk shape mp2 := rfl

/-- A provider environment in which every round-trip fails at the transport
level (used for concrete runs: every chunk then falls back to its original
coordinates). -/
def failProviders : Providers :=
  ⟨fun _ => OsrmResult.transportError,
   fun _ => MapboxResult.transportError,
   fun _ => GoogleResult.transportError⟩

/-- A concrete one-point shape. -/
def shape0 : Shape := ⟨"s", [⟨"s", 1, 2, 0⟩]⟩

/-- A concrete two-point shape. -/
def shape2 : Shape := ⟨"s", [⟨"s", 0, 0, 0⟩, ⟨"s", 3, 0, 1⟩]⟩

/-- A concrete OSRM snapper with no cache directory. -/
def rs0 : RoadSnapper := ⟨"osrm", none, none⟩

/-- A distance oracle reporting 300 m between any two points. -/
def dist300 : Coord → Coord → ℚ := fun _ _ => 300

/-- An 8-point path (forces two overlapping OSRM windows: 6 > 8 is false,
windows `[0:6]` and `[4:8]`). -/
def pts8 : List Coord :=
  [(0, 0), (1, 1), (2, 2), (3, 3), (4, 4), (5, 5), (6, 6), (7, 7)]

/-- A 12-point path (forces two overlapping Mapbox windows `[0:10]` and
`[5:12]`). -/
def pts12 : List Coord :=
  [(0, 0), (1, 1), (2, 2), (3, 3), (4, 4), (5, 5), (6, 6), (7, 7),
   (8, 8), (9, 9), (10, 10), (11, 11)]

/-- Whether a `snap_shape` run completed without raising. -/
def isOkE {α : Type} (e : Except String α) : Bool :=
  match e with
  | Except.ok _ => true
  | Except.error _ => false

/-- The provider-call trace of a `snap_shape` run (the windows sent, in
order; empty for a raised run or a cache hit). -/
def snapTrace (e : Except String (Shape × Cache × List (List Coord))) :
    List (List Coord) :=
  match e with
  | Except.ok x => x.2.2
  | Except.error _ => []

/-- The shape produced by a completed `snap_shape` run. -/
def snapResult (e : Except String (Shape × Cache × List (List Coord))) :
    Option Shape :=
  match e with
  | Except.ok x => some x.1
  | Except.error _ => none

/-- C7: on a cache miss (or with no cache configured), a path whose
coordinate count is at most the configured provider's chunk size is snapped
without raising, with exactly one provider call, whose window is the whole
coordinate list. -/
theorem snap_single_chunk_one_call (rs : RoadSnapper) (prov : Providers)
    (cache : Cache) (writeOk : Bool) (shape : Shape) (mp : Option Nat)
    (hmiss : cacheLookup rs cache shape.shape_id = none)
    (hprov : rs.provider = "osrm" ∨ rs.provider = "mapbox" ∨ rs.provider = "google")
    (hlen : shape.points.length ≤ providerChunkSize rs.provider) :
    isOkE (snapShapeE rs prov cache writeOk shape mp) = true
    ∧ snapTrace (snapShapeE rs prov cache writeOk shape mp)
        = [shapeCoords shape] := by
  rcases hprov with h | h | h <;>
    simp only [providerChunkSize, h, RoadSnapperConfig.OSRM_CHUNK_SIZE,
      RoadSnapperConfig.MAPBOX_CHUNK_SIZE, RoadSnapperConfig.GOOGLE_CHUNK_SIZE,
      String.reduceEq, ite_true, ite_false, reduceIte] at hlen <;>
    constructor <;>
    simp [snapShapeE, isOkE, snapTrace, hmiss, h, snapOsrm, snapMapbox,
      snapGoogle, snapChunked, shapeCoords, RoadSnapperConfig.OSRM_CHUNK_SIZE,
      RoadSnapperConfig.MAPBOX_CHUNK_SIZE, RoadSnapperConfig.GOOGLE_CHUNK_SIZE,
      hlen]

/-- C7 witness: a one-point shape through the OSRM provider on an empty
cache issues exactly one provider call covering the whole list. -/
theorem snap_single_chunk_one_call_witness :
    isOkE (snapShapeE rs0 failProviders [] true shape0 none) = true
    ∧ snapTrace (snapShapeE rs0 failProviders [] true shape0 none)
        = [shapeCoords shape0] :=
  snap_single_chunk_one_call rs0 failProviders [] true shape0 none rfl
    (Or.inl rfl)
    (by simp [shape0, rs0, providerChunkSize, RoadSnapperConfig.OSRM_CHUNK_SIZE])

/-- C2 counterexample: with both OSRM windows of an 8-point path falling
back to their original coordinates (simulated provider failure), the
stitched output is `[c0..c5] ++ [c5, c6, c7]`: only `overlap/2 = 1` of the
2 overlapping points is discarded, so the point `c5` appears twice in a row
at the stitch boundary — the claim's "no duplicate consecutive identical
points at stitch boundaries" conjunct is false. -/
theorem snap_stitch_duplicate_counterexample :
    hasAdjacentDup (snapOsrm failProviders.osrm pts8 none).1 = true := rfl

/-- C2 (amended): for a path requiring more than one overlapping window,
the stitched output point count equals the sum of each window result's
length minus `overlap/2` discarded points for every window after the first,
provided each later window result has at least `overlap/2` points; no
deduplication is performed, so duplicate consecutive identical points can
remain at stitch boundaries.  Stated for the OSRM path (`overlap/2 = 1`)
and the Mapbox path (`overlap/2 = 2`). -/
theorem snap_stitch_count :
    (∀ (oracle : List Coord → OsrmResult) (coords : List Coord) (mp : Option Nat),
      RoadSnapperConfig.OSRM_CHUNK_SIZE < coords.length →
      (∀ c ∈ (snapOsrm oracle coords mp).2.tail,
          1 ≤ (snapOsrmChunk (oracle c) c).length) →
      (snapOsrm oracle coords mp).1.length
        = ((snapOsrm oracle coords mp).2.map
            fun c => (snapOsrmChunk (oracle c) c).length).sum
          - 1 * ((snapOsrm oracle coords mp).2.length - 1))
    ∧ (∀ (oracle : List Coord → MapboxResult) (coords : List Coord) (mp : Option Nat),
      RoadSnapperConfig.MAPBOX_CHUNK_SIZE < coords.length →
      (∀ c ∈ (snapMapbox oracle coords mp).2.tail,
          2 ≤ (snapMapboxChunk (oracle c) c).length) →
      (snapMapbox oracle coords mp).1.length
        = ((snapMapbox oracle coords mp).2.map
            fun c => (snapMapboxChunk (oracle c) c).length).sum
          - 2 * ((snapMapbox oracle coords mp).2.length - 1)) := by
  constructor
  · intro oracle coords mp hlen htail
    exact snapChunked_length (fun c => snapOsrmChunk (oracle c) c)
      RoadSnapperConfig.OSRM_CHUNK_SIZE 2 coords
      (by norm_num [RoadSnapperConfig.OSRM_CHUNK_SIZE]) hlen htail
  · intro oracle coords mp hlen htail
    exact snapChunked_length (fun c => snapMapboxChunk (oracle c) c)
      RoadSnapperConfig.MAPBOX_CHUNK_SIZE 5 coords
      (by norm_num [RoadSnapperConfig.MAPBOX_CHUNK_SIZE]) hlen htail

/-- C2 witness: the stitched-count equation at concrete multi-window runs
(8 points through OSRM: 9 = (6 + 4) − 1; 12 points through Mapbox:
15 = (10 + 7) − 2). -/
theorem snap_stitch_count_witness :
    ((snapOsrm failProviders.osrm pts8 none).1.length
      = ((snapOsrm failProviders.osrm pts8 none).2.map
          fun c => (snapOsrmChunk (failProviders.osrm c) c).length).sum
        - 1 * ((snapOsrm failProviders.osrm pts8 none).2.length - 1))
    ∧ ((snapMapbox failProviders.mapbox pts12 none).1.length
      = ((snapMapbox failProviders.mapbox pts12 none).2.map
          fun c => (snapMapboxChunk (failProviders.mapbox c) c).length).sum
        - 2 * ((snapMapbox failProviders.mapbox pts12 none).2.length - 1)) :=
  ⟨snap_stitch_count.1 failProviders.osrm pts8 none (by decide) (by decide),
   snap_stitch_count.2 failProviders.mapbox pts12 none (by decide) (by decide)⟩

/-- C3 counterexample: on a 2-point path whose endpoints are exactly 300 m
apart with `interval_meters = 100`, the number of intermediate points is
`int(300 / 100) = 3`, so `densify` produces 5 points, not 4. -/
theorem densify_300m_not_four_points :
    (densifyShape dist300 100 shape2 none).points.length ≠ 4 := by
  have hq : ((300 : ℚ) / 100) = 3 := by norm_num
  have hlt : (100 : ℚ) < 300 := by norm_num
  have hn : pyFloorPos ((300 : ℚ) / 100) = 3 := by
    rw [hq]
    simp [pyFloorPos]
  simp [densifyShape, shape2, dist300, shapeCoords, densifyWalk, densifySegment,
    hlt, hn, enumPointsAux_length, coordOf]
  decide

/-- C3 (amended): `densify` on a 2-point path whose endpoints are exactly
300 m apart, with `interval_meters = 100`, produces exactly 5 points: the
original two endpoints plus `int(300/100) = 3` interpolated points, evenly
spaced at fractions 1/4, 2/4, 3/4 of the segment. -/
theorem densify_300m_interval100 (dist : Coord → Coord → ℚ) (s : Shape)
    (p1 p2 : ShapePoint) (hpts : s.points = [p1, p2])
    (hdist : dist (coordOf p1) (coordOf p2) = 300) :
    (densifyShape dist 100 s none).points.map coordOf
      = [coordOf p1,
         (p1.shape_pt_lat + 1 / 4 * (p2.shape_pt_lat - p1.shape_pt_lat),
          p1.shape_pt_lon + 1 / 4 * (p2.shape_pt_lon - p1.shape_pt_lon)),
         (p1.shape_pt_lat + 2 / 4 * (p2.shape_pt_lat - p1.shape_pt_lat),
          p1.shape_pt_lon + 2 / 4 * (p2.shape_pt_lon - p1.shape_pt_lon)),
         (p1.shape_pt_lat + 3 / 4 * (p2.shape_pt_lat - p1.shape_pt_lat),
          p1.shape_pt_lon + 3 / 4 * (p2.shape_pt_lon - p1.shape_pt_lon)),
         coordOf p2] := by
  have hq : ((300 : ℚ) / 100) = 3 := by norm_num
  have hlt : (100 : ℚ) < 300 := by norm_num
  have hn : pyFloorPos ((300 : ℚ) / 100) = 3 := by
    rw [hq]
    simp [pyFloorPos]
  simp only [densifyShape, hpts, shapeCoords, List.map_cons, List.map_nil,
    List.length_cons, List.length_nil, densifyWalk, densifySegment, hdist, hn,
    if_pos hlt, List.getLastD, enumPointsAux_map_coordOf]
  norm_num [List.range_succ, coordOf]
  exact enumPointsAux_map_coordOf _ _ 0

/-- C3 witness: concrete endpoints (0,0) and (3,0) reported 300 m apart
yield the 5 points (0,0), (3/4,0), (3/2,0), (9/4,0), (3,0). -/
theorem densify_300m_interval100_witness :
    (densifyShape dist300 100 shape2 none).points.map coordOf
      = [(0, 0), (3 / 4, 0), (3 / 2, 0), (9 / 4, 0), (3, 0)] := by
  have h := densify_300m_interval100 dist300 shape2 ⟨"s", 0, 0, 0⟩ ⟨"s", 3, 0, 1⟩
    rfl rfl
  norm_num [coordOf] at h
  exact h

/-- C4 counterexample: constructing a `RoadSnapper` with the unrecognized
provider string `"other"` succeeds (the constructor only checks for a
missing API key on `mapbox`/`google`), yet `snap_shape` then raises
`ValueError("Unknown provider: other")`: a hard failure surfaced after
construction succeeded, so the configuration error at construction time is
not the only hard failure. -/
theorem snap_unknown_provider_raises :
    RoadSnapper.init "other" none none = Except.ok ⟨"other", none, none⟩
    ∧ snapShapeE ⟨"other", none, none⟩ failProviders [] true shape0 none
        = Except.error "Unknown provider: other" := by
  constructor
  · rfl
  · rfl

/-- C4 (amended): for every `RoadSnapper` whose provider is one of the
supported set (`osrm`, `mapbox`, `google`), `snap_shape` never raises —
every provider, transport, confidence and cache failure (corrupt cache
artifact, failed cache write) is degraded locally — and `densify_shape`
never raises, passing degenerate inputs (< 2 points) through unchanged.
For an unrecognized provider string, construction nevertheless succeeds and
`snap_shape` raises `ValueError` at call time. -/
theorem snap_densify_no_raise (rs : RoadSnapper) (prov : Providers)
    (cache : Cache) (writeOk : Bool) (shape : Shape) (mp : Option Nat)
    (hprov : rs.provider = "osrm" ∨ rs.provider = "mapbox" ∨ rs.provider = "google") :
    isOkE (snapShapeE rs prov cache writeOk shape mp) = true
    ∧ (∀ (dist : Coord → Coord → ℚ) (interval : ℚ) (pp : Option (List Nat)),
        shape.points.length < 2 → densifyShape dist interval shape pp = shape) := by
  constructor
  · cases hcl : cacheLookup rs cache shape.shape_id with
    | some cached => simp [snapShapeE, isOkE, hcl]
    | none =>
      rcases hprov with h | h | h <;> simp [snapShapeE, isOkE, hcl, h]
  · intro dist interval pp hlen
    simp [densifyShape, hlen]

/-- C4 witness: a concrete OSRM snapper with every provider call failing
and an empty cache completes `snap_shape` without raising, and a one-point
shape passes through `densify_shape` unchanged. -/
theorem snap_densify_no_raise_witness :
    isOkE (snapShapeE rs0 failProviders [] true shape0 none) = true
    ∧ densifyShape dist300 100 shape0 none = shape0 := by
  have h := snap_densify_no_raise rs0 failProviders [] true shape0 none (Or.inl rfl)
  exact ⟨h.1, h.2 dist300 100 none (by simp [shape0])⟩

/-- C8 counterexample: `densify_shape` on a shape with fewer than 2 points
returns the input shape itself — the same value, with its identifier
unchanged (`"s"`, not suffix-tagged) — so not every transformation returns
a new, distinct path value with a derived identifier. -/
theorem densify_degenerate_returns_input :
    densifyShape dist300 100 shape0 none = shape0
    ∧ (densifyShape dist300 100 shape0 none).shape_id = "s" :=
  ⟨rfl, rfl⟩

/-- C8 (amended): `densify_shape` on a shape with at least 2 points returns
a new shape value, distinct from the input, whose identifier is the input
identifier suffix-tagged with `_dense`; `snap_shape`, on a cache miss that
completes, returns a new shape value, distinct from the input, whose
identifier is suffix-tagged with `_snapped`.  (Both transformations build
all-new point objects; the embedding is pure, matching the code, which
never writes to the input shape.)  A shape with fewer than 2 points is
returned from `densify_shape` as-is, without a new value or a derived
identifier. -/
theorem transform_new_value_tagged (shape : Shape) :
    (∀ (dist : Coord → Coord → ℚ) (interval : ℚ) (pp : Option (List Nat)),
      2 ≤ shape.points.length →
      (densifyShape dist interval shape pp).shape_id = shape.shape_id ++ "_dense"
      ∧ densifyShape dist interval shape pp ≠ shape)
    ∧ (∀ (rs : RoadSnapper) (prov : Providers) (cache : Cache) (writeOk : Bool)
        (mp : Option Nat) (out : Shape),
        cacheLookup rs cache shape.shape_id = none →
        snapResult (snapShapeE rs prov cache writeOk shape mp) = some out →
        out.shape_id = shape.shape_id ++ "_snapped" ∧ out ≠ shape) := by
  constructor
  · intro dist interval pp h2
    have hid : (densifyShape dist interval shape pp).shape_id
        = shape.shape_id ++ "_dense" := by
      simp [densifyShape, Nat.not_lt.mpr h2]
    refine ⟨hid, ?_⟩
    intro heq
    have hid2 := congrArg Shape.shape_id heq
    rw [hid] at hid2
    exact string_append_tag_ne _ _ (by decide) hid2
  · intro rs prov cache writeOk mp out hmiss hres
    by_cases h1 : rs.provider = "osrm"
    · simp only [snapShapeE, hmiss, h1, String.reduceEq, ite_true, ite_false,
        reduceIte, snapResult, Option.some.injEq] at hres
      subst hres
      refine ⟨rfl, ?_⟩
      intro heq
      have hid2 := congrArg Shape.shape_id heq
      exact string_append_tag_ne _ _ (by decide) hid2
    · by_cases h2 : rs.provider = "mapbox"
      · simp only [snapShapeE, hmiss, h1, h2, String.reduceEq, ite_true,
          ite_false, reduceIte, snapResult, Option.some.injEq] at hres
        subst hres
        refine ⟨rfl, ?_⟩
        intro heq
        have hid2 := congrArg Shape.shape_id heq
        exact string_append_tag_ne _ _ (by decide) hid2
      · by_cases h3 : rs.provider = "google"
        · simp only [snapShapeE, hmiss, h1, h2, h3, String.reduceEq, ite_true,
            ite_false, reduceIte, snapResult, Option.some.injEq] at hres
          subst hres
          refine ⟨rfl, ?_⟩
          intro heq
          have hid2 := congrArg Shape.shape_id heq
          exact string_append_tag_ne _ _ (by decide) hid2
        · simp only [snapShapeE, hmiss, h1, h2, h3, String.reduceEq, ite_true,
            ite_false, reduceIte, snapResult] at hres
          exact Option.noConfusion hres

/-- The shape a cache-missing OSRM `snap_shape` run produces from
`shape0` when every provider call fails. -/
def out0 : Shape := ⟨"s_snapped", [⟨"s_snapped", 1, 2, 0⟩]⟩

/-- C8 witness: a 2-point shape densifies to a `_dense`-tagged distinct
shape; a one-point shape snaps (cache miss, failing provider) to a
`_snapped`-tagged distinct shape. -/
theorem transform_new_value_tagged_witness :
    ((densifyShape dist300 100 shape2 none).shape_id = shape2.shape_id ++ "_dense"
      ∧ densifyShape dist300 100 shape2 none ≠ shape2)
    ∧ (out0.shape_id = shape0.shape_id ++ "_snapped" ∧ out0 ≠ shape0) :=
  ⟨(transform_new_value_tagged shape2).1 dist300 100 none (by simp [shape2]),
   (transform_new_value_tagged shape0).2 rs0 failProviders [] true none out0
     rfl rfl⟩

/-- C10: the `preserve_points` argument of `densify_shape` has no effect:
for any two values (including omitted), the two runs return identical
shapes. -/
theorem densify_preservePoints_irrelevant (dist : Coord → Coord → ℚ)
    (interval : ℚ) (shape : Shape) (pp1 pp2 : Option (List Nat)) :
    densifyShape dist interval shape pp1 = densifyShape dist interval shape pp2 := rfl

end Gtfs2Kml
